import Mathlib

set_option maxRecDepth 40000

/-!
Shallow embedding of src/oncourt/bin/augment_games_data.py (a Python 2
program).  Python strings are modelled as lists of characters; Python code
that can raise an exception is modelled with Option or Except; CPython 2
mixed-type comparison semantics are modelled explicitly where the source
relies on them.
-/

/-- Python strings are modelled as lists of characters. -/
abbrev Str := List Char

/-- Model of Python 2 str.split(sep) for a single-character separator:
splits on every occurrence of the separator, keeping empty pieces, and
returns a single (possibly empty) piece for a string with no separator. -/
def pySplit (sep : Char) : Str → List Str
  | [] => [[]]
  | c :: rest =>
    if c = sep then [] :: pySplit sep rest
    else
      match pySplit sep rest with
      | [] => [[c]]
      | r :: rs => (c :: r) :: rs

theorem pySplit_ne_nil (sep : Char) (s : Str) : pySplit sep s ≠ [] := by
  induction s with
  | nil => simp [pySplit]
  | cons c rest ih =>
    simp only [pySplit]
    split
    · simp
    · cases h : pySplit sep rest with
      | nil => simp
      | cons r rs => simp

theorem pySplit_not_mem {sep : Char} {s : Str} (h : sep ∉ s) :
    pySplit sep s = [s] := by
  induction s with
  | nil => rfl
  | cons c rest ih =>
    have hc : ¬ c = sep := by
      intro hcs; exact h (hcs ▸ List.mem_cons_self c rest)
    have hrest : sep ∉ rest := fun hm => h (List.mem_cons_of_mem c hm)
    simp only [pySplit, if_neg hc, ih hrest]

theorem pySplit_append {sep : Char} (a b : Str) (h : sep ∉ a) :
    pySplit sep (a ++ sep :: b) = a :: pySplit sep b := by
  induction a with
  | nil => simp [pySplit]
  | cons c a' ih =>
    have hc : ¬ c = sep := by
      intro hcs; exact h (hcs ▸ List.mem_cons_self c a')
    have ha' : sep ∉ a' := fun hm => h (List.mem_cons_of_mem c hm)
    simp only [List.cons_append, pySplit, if_neg hc, List.append_eq, ih ha']

/-- Characters stripped by Python 2 str.strip() with no argument. -/
def pyIsSpace (c : Char) : Bool :=
  c = ' ' || c = '\t' || c = '\n' || c = '\r' || c = '\x0b' || c = '\x0c'

/-- Model of Python str.strip(): removes leading and trailing whitespace. -/
def pyStrip (s : Str) : Str :=
  ((s.dropWhile pyIsSpace).reverse.dropWhile pyIsSpace).reverse

/-- Accumulating decimal-digit reader used by the model of int(). -/
def digitsToNatGo : Str → Nat → Option Nat
  | [], acc => some acc
  | c :: rest, acc =>
    if c.isDigit then digitsToNatGo rest (acc * 10 + (c.toNat - '0'.toNat))
    else none

/-- Value of a non-empty all-digit string, none otherwise. -/
def digitsToNat (s : Str) : Option Nat :=
  if s = [] then none else digitsToNatGo s 0

/-- Model of Python int(s) on a string: strips whitespace, accepts an
optional sign followed by one or more decimal digits; returns none where
Python would raise ValueError. -/
def pyInt (s : Str) : Option Int :=
  match pyStrip s with
  | '-' :: rest => (digitsToNat rest).map (fun n => -(n : Int))
  | '+' :: rest => (digitsToNat rest).map (fun n => (n : Int))
  | t => (digitsToNat t).map (fun n => (n : Int))

/-- CPython 2 lexicographic comparison of two strings (byte ordering). -/
def pyStrLt : Str → Str → Bool
  | [], [] => false
  | [], _ :: _ => true
  | _ :: _, [] => false
  | c :: cs, d :: ds =>
    if c.toNat < d.toNat then true
    else if d.toNat < c.toNat then false
    else pyStrLt cs ds

def pyStrGt (a b : Str) : Bool := pyStrLt b a

/-- CPython 2 mixed-type comparison of a str with an int.  In Python 2,
comparing values of different types falls back to a fixed ordering in
which every number is smaller than every non-numeric object; hence a str
is never less than an int and this comparison is constantly false.  The
source relies on this at the game-count plausibility guard in
Match._setResultInfo, where games[0] and games[1] are strings compared
against the int 6. -/
def py2LtStrInt (_s : Str) (_n : Int) : Bool := false

/-- Model of Python s.replace(old, "") for a single-character old:
removes every occurrence of the character. -/
def removeChar (old : Char) (s : Str) : Str := s.filter (fun c => ¬ c = old)

/-- Decimal rendering of a Nat, as Python "%s" would produce. -/
def natRepr (n : Nat) : Str := (Nat.repr n).toList

/-- Decimal rendering of an Int, as Python "%s" would produce. -/
def intRepr : Int → Str
  | .ofNat n => natRepr n
  | .negSucc n => '-' :: natRepr (n + 1)

/-- Model of convertOnCourtDateToYmd: splits off the time part at the
first space, splits the date part on slashes, windows the two-digit year
(at least 45 maps to 1900 plus year, below 45 maps to 2000 plus year) and
reassembles as YYYY/MM/DD.  Returns none where Python would raise
(IndexError on a date part with fewer than three slash components, or
ValueError from int()). -/
def convertOnCourtDateToYmd (dateStr : Str) : Option Str :=
  let dateParts := pySplit '/' ((pySplit ' ' dateStr).headD [])
  match dateParts with
  | p0 :: p1 :: p2 :: _ =>
    (pyInt p2).map (fun year =>
      intRepr (if 45 ≤ year then year + 1900 else year + 2000)
        ++ '/' :: p0 ++ '/' :: p1)
  | _ => none

example : convertOnCourtDateToYmd ("01/15/99 10:00:00").toList
    = some ("1999/01/15").toList := by decide

example : convertOnCourtDateToYmd ("03/02/10 10:00:00").toList
    = some ("2010/03/02").toList := by decide

/-!
ResultInfo: per-set score accumulator (class ResultInfo of the source).
Sets-won counters are incremented by string comparison of the raw game
counts (Python 2 lexicographic str comparison), and the game counts are
stored after int() conversion, exactly as addSet does.
-/

structure ResultInfo where
  winnerSetsWon : Int
  loserSetsWon : Int
  winnerSetGames : List Int
  loserSetGames : List Int
deriving DecidableEq, Repr

def ResultInfo.init : ResultInfo := ⟨0, 0, [], []⟩

/-- Model of ResultInfo.addSet(winnerGames, loserGames).  The arguments are
the raw strings from the score token; the comparison deciding who won the
set is the Python 2 string comparison, and int() conversion of either
count can raise, in which case none is returned. -/
def ResultInfo.addSet (ri : ResultInfo) (winnerGames loserGames : Str) :
    Option ResultInfo := do
  let wg ← pyInt winnerGames
  let lg ← pyInt loserGames
  pure { winnerSetsWon :=
           if pyStrGt winnerGames loserGames then ri.winnerSetsWon + 1
           else ri.winnerSetsWon,
         loserSetsWon :=
           if pyStrGt winnerGames loserGames then ri.loserSetsWon
           else ri.loserSetsWon + 1,
         winnerSetGames := ri.winnerSetGames ++ [wg],
         loserSetGames := ri.loserSetGames ++ [lg] }

def ResultInfo.getWinnerGamesWon (ri : ResultInfo) : Int :=
  ri.winnerSetGames.foldl (fun r s => r + s) 0

def ResultInfo.getLoserGamesWon (ri : ResultInfo) : Int :=
  ri.loserSetGames.foldl (fun r s => r + s) 0

def ResultInfo.getTotalGamesPlayed (ri : ResultInfo) : Int :=
  ri.getWinnerGamesWon + ri.getLoserGamesWon

/-- Model of getWinnerTieBreaksWon: walks the per-set game counts of both
sides in parallel (both lists always have the same length, since addSet
appends to both) and counts the sets decided 7 to 6 for the winner. -/
def ResultInfo.getWinnerTieBreaksWon (ri : ResultInfo) : Int :=
  (ri.winnerSetGames.zip ri.loserSetGames).foldl
    (fun r p => if p.1 = 7 ∧ p.2 = 6 then r + 1 else r) 0

/-- Model of getLoserTieBreaksWon: counts the sets decided 6 to 7. -/
def ResultInfo.getLoserTieBreaksWon (ri : ResultInfo) : Int :=
  (ri.winnerSetGames.zip ri.loserSetGames).foldl
    (fun r p => if p.1 = 6 ∧ p.2 = 7 then r + 1 else r) 0

/-- The eight comma-separated fields of str(ResultInfo), in print order. -/
def ResultInfo.fields (ri : ResultInfo) : List Str :=
  [intRepr ri.winnerSetsWon,
   intRepr ri.loserSetsWon,
   intRepr ri.getWinnerGamesWon,
   intRepr ri.getLoserGamesWon,
   intRepr ri.getTotalGamesPlayed,
   intRepr ri.getWinnerTieBreaksWon,
   intRepr ri.getLoserTieBreaksWon,
   intRepr (ri.getWinnerTieBreaksWon + ri.getLoserTieBreaksWon)]

def ResultInfo.str (ri : ResultInfo) : Str :=
  List.intercalate [','] ri.fields

/-- Per-token loop body of Match._setResultInfo: split the token on the
dash, reject a token without exactly two parts, apply the (dead, see
py2LtStrInt) plausibility guard, strip a parenthesised tie-break
annotation from the second count, and accumulate the set. -/
def setResultInfoGo : List Str → ResultInfo → Option ResultInfo
  | [], ri => some ri
  | tok :: rest, ri =>
    match pySplit '-' tok with
    | [g0, g1] =>
      if py2LtStrInt g0 6 && py2LtStrInt g1 6 then none
      else
        let g1s := if g1.contains '(' then g1.takeWhile (fun c => ¬ c = '(') else g1
        match ri.addSet g0 g1s with
        | none => none
        | some ri2 => setResultInfoGo rest ri2
    | _ => none

/-- Model of Match._setResultInfo(resultStr): splits the score string on
spaces, rejects fewer than two set tokens, then folds the tokens into a
ResultInfo; none models a raised ValueError (the match's construction is
then aborted). -/
def setResultInfo (resultStr : Str) : Option ResultInfo :=
  let setResults := pySplit ' ' resultStr
  if setResults.length < 2 then none
  else setResultInfoGo setResults ResultInfo.init

example : setResultInfo ("6-4").toList = none := by decide

example : setResultInfo ("6-4 3-6 7-6(4)").toList
    = some ⟨2, 1, [6, 3, 7], [4, 6, 6]⟩ := by decide

example : setResultInfo ("4-5 4-5").toList
    = some ⟨0, 2, [4, 4], [5, 5]⟩ := by decide

/-- Standard two-digit rendering of a year below 100, as it appears in the
MM/DD/YY source format. -/
def twoDigits (y : Nat) : Str :=
  if y < 10 then '0' :: natRepr y else natRepr y

theorem twoDigits_facts :
    ∀ y : Nat, y < 100 →
      ' ' ∉ twoDigits y ∧ '/' ∉ twoDigits y ∧
        pyInt (twoDigits y) = some (y : Int) := by decide

theorem intRepr_natCast (n : Nat) : intRepr (n : Int) = natRepr n := rfl

/-- C7: for every source date string of the form MM/DD/YY HH:MM:SS (month
and day parts free of slashes and spaces, arbitrary trailing time part),
convertOnCourtDateToYmd returns YYYY/MM/DD where the two-digit year y maps
to 1900 + y when y is at least 45 and to 2000 + y when y is below 45; in
particular "01/15/99 10:00:00" maps to "1999/01/15" and
"03/02/10 10:00:00" maps to "2010/03/02". -/
theorem c7_year_windowing :
    (∀ (mm dd rest : Str) (y : Nat), y < 100 →
       ' ' ∉ mm → '/' ∉ mm → ' ' ∉ dd → '/' ∉ dd →
       convertOnCourtDateToYmd
           (mm ++ ('/' :: (dd ++ ('/' :: (twoDigits y ++ (' ' :: rest))))))
         = some (natRepr (if 45 ≤ y then 1900 + y else 2000 + y)
                   ++ '/' :: mm ++ '/' :: dd))
    ∧ convertOnCourtDateToYmd ("01/15/99 10:00:00").toList
        = some ("1999/01/15").toList
    ∧ convertOnCourtDateToYmd ("03/02/10 10:00:00").toList
        = some ("2010/03/02").toList := by
  refine ⟨?_, by decide, by decide⟩
  intro mm dd rest y hy hmm1 hmm2 hdd1 hdd2
  obtain ⟨h2sp, h2sl, h2v⟩ := twoDigits_facts y hy
  have hnospace : ' ' ∉ mm ++ ('/' :: (dd ++ ('/' :: twoDigits y))) := by
    intro h
    rcases List.mem_append.mp h with h | h
    · exact hmm1 h
    rcases List.mem_cons.mp h with h | h
    · exact absurd h (by decide)
    rcases List.mem_append.mp h with h | h
    · exact hdd1 h
    rcases List.mem_cons.mp h with h | h
    · exact absurd h (by decide)
    exact h2sp h
  have hassoc : mm ++ ('/' :: (dd ++ ('/' :: (twoDigits y ++ (' ' :: rest)))))
      = (mm ++ ('/' :: (dd ++ ('/' :: twoDigits y)))) ++ (' ' :: rest) := by
    simp
  rw [hassoc, convertOnCourtDateToYmd, pySplit_append _ _ hnospace,
    List.headD_cons, pySplit_append mm _ hmm2, pySplit_append dd _ hdd2,
    pySplit_not_mem h2sl]
  rcases le_or_lt 45 y with h45 | h45
  · have h45i : (45 : Int) ≤ (y : Nat) := by exact_mod_cast h45
    have hcast : ((y : Nat) : Int) + 1900 = ((1900 + y : Nat) : Int) := by
      push_cast; ring
    simp only [h2v, Option.map_some', if_pos h45, if_pos h45i,
      Option.some.injEq]
    rw [hcast, intRepr_natCast]
  · have h45i : ¬ (45 : Int) ≤ (y : Nat) := by
      intro hc
      exact absurd (by exact_mod_cast hc : 45 ≤ y) (Nat.not_le.mpr h45)
    have hcast : ((y : Nat) : Int) + 2000 = ((2000 + y : Nat) : Int) := by
      push_cast; ring
    simp only [h2v, Option.map_some', if_neg (Nat.not_le.mpr h45),
      if_neg h45i, Option.some.injEq]
    rw [hcast, intRepr_natCast]

theorem foldlCountOne (p : Int × Int → Prop) [DecidablePred p]
    (l : List (Int × Int)) (n : Int) :
    l.foldl (fun r q => if p q then r + 1 else r) n
      = n + (l.countP (fun q => decide (p q)) : Nat) := by
  induction l generalizing n with
  | nil => simp
  | cons q l ih =>
    by_cases h : p q
    · simp only [List.foldl_cons, List.countP_cons, if_pos h, ih,
        decide_eq_true h]
      push_cast
      ring
    · simp only [List.foldl_cons, List.countP_cons, if_neg h, ih,
        decide_eq_false h]
      push_cast
      ring

/-- C6: parsing the score string "6-4 3-6 7-6(4)" produces a ResultInfo
with winner sets 2, loser sets 1, winner games 16, loser games 16, total
games 32, winner tie-breaks 1, loser tie-breaks 0; and in general a
tie-break is counted for a side exactly when a stored per-set game pair is
7-6 (winner side) or 6-7 (loser side). -/
theorem c6_score_example_and_tiebreak_rule :
    (∃ ri, setResultInfo ("6-4 3-6 7-6(4)").toList = some ri ∧
       ri.winnerSetsWon = 2 ∧ ri.loserSetsWon = 1 ∧
       ri.getWinnerGamesWon = 16 ∧ ri.getLoserGamesWon = 16 ∧
       ri.getTotalGamesPlayed = 32 ∧
       ri.getWinnerTieBreaksWon = 1 ∧ ri.getLoserTieBreaksWon = 0)
    ∧ (∀ ri : ResultInfo,
        ri.getWinnerTieBreaksWon
            = ((ri.winnerSetGames.zip ri.loserSetGames).countP
                (fun p => decide (p.1 = 7 ∧ p.2 = 6)) : Nat)
        ∧ ri.getLoserTieBreaksWon
            = ((ri.winnerSetGames.zip ri.loserSetGames).countP
                (fun p => decide (p.1 = 6 ∧ p.2 = 7)) : Nat)) := by
  constructor
  · exact ⟨⟨2, 1, [6, 3, 7], [4, 6, 6]⟩, by decide, rfl, rfl, by decide,
      by decide, by decide, by decide, by decide⟩
  · intro ri
    constructor
    · rw [ResultInfo.getWinnerTieBreaksWon,
        foldlCountOne (fun p => p.1 = 7 ∧ p.2 = 6)]
      ring
    · rw [ResultInfo.getLoserTieBreaksWon,
        foldlCountOne (fun p => p.1 = 6 ∧ p.2 = 7)]
      ring

/-- C2: contrary to the claim, a set token whose two game counts are both
below 6 does not make score parsing fail.  The guard in _setResultInfo
compares the string game counts against the int 6, and in Python 2 a str
never compares less than an int, so the guard is constantly false: the
score "4-5 4-5" parses successfully (both sets credited to the loser by
string comparison) instead of raising. -/
theorem c2_bug_implausible_set_accepted :
    setResultInfo ("4-5 4-5").toList = some ⟨0, 2, [4, 4], [5, 5]⟩ := by
  decide

theorem c7_year_windowing_witness :
    convertOnCourtDateToYmd
        (("01").toList ++ ('/' :: (("15").toList
          ++ ('/' :: (twoDigits 99 ++ (' ' :: ("10:00:00").toList))))))
      = some (natRepr (if 45 ≤ 99 then 1900 + 99 else 2000 + 99)
          ++ '/' :: ("01").toList ++ '/' :: ("15").toList) :=
  c7_year_windowing.1 ("01").toList ("15").toList ("10:00:00").toList 99
    (by decide) (by decide) (by decide) (by decide) (by decide)

/-!
IDToNameMapper: the generic ID-to-name reference-file reader.  The header
scan locates the key and value columns by name (last occurrence wins, as
repeated assignment of the index does in the source); rows are
quote-stripped, stripped and comma-split; a row shorter than the located
positions raises (IndexError); rows with non-empty key and value are
stored with Python dict assignment semantics, which silently overwrites
an existing key.
-/

/-- Python dict assignment d[k] = v: overwrites in place, appends new. -/
def dictInsert {α : Type} : List (Str × α) → Str → α → List (Str × α)
  | [], k, v => [(k, v)]
  | (k2, v2) :: rest, k, v =>
    if k2 = k then (k, v) :: rest else (k2, v2) :: dictInsert rest k v

/-- Python dict lookup, first (and in a dict, only) match. -/
def alookup {α : Type} (k : Str) : List (Str × α) → Option α
  | [] => none
  | (k2, v2) :: rest => if k2 = k then some v2 else alookup k rest

/-- Header scan of IDToNameMapper.load: walks the comma-split header with
a running index, recording the id-column and name-column positions. -/
def findColumnsGo (idColumn nameColumn : Str) :
    List Str → Nat → Option Nat × Option Nat → Option Nat × Option Nat
  | [], _, acc => acc
  | col :: rest, i, (idPos, namePos) =>
    if col = idColumn then
      findColumnsGo idColumn nameColumn rest (i + 1) (some i, namePos)
    else if col = nameColumn then
      findColumnsGo idColumn nameColumn rest (i + 1) (idPos, some i)
    else
      findColumnsGo idColumn nameColumn rest (i + 1) (idPos, namePos)

/-- Data-row loop of IDToNameMapper.load. -/
def mapperLoadRows (idPos namePos : Nat) :
    List Str → List (Str × Str) → Except Str (List (Str × Str))
  | [], m => .ok m
  | row :: rest, m =>
    let elements := pySplit ',' (pyStrip (removeChar '"' row))
    match elements.get? idPos, elements.get? namePos with
    | some pID, some pName =>
      if ¬ pID = [] ∧ ¬ pName = [] then
        mapperLoadRows idPos namePos rest (dictInsert m pID pName)
      else
        mapperLoadRows idPos namePos rest m
    | _, _ => .error (("IndexError: reference row too short").toList)

/-- Model of IDToNameMapper.load, over the header line and the raw data
lines of the reference file. -/
def mapperLoad (header : Str) (rawDataList : List Str)
    (idColumn nameColumn : Str) : Except Str (List (Str × Str)) :=
  match findColumnsGo idColumn nameColumn (pySplit ',' (pyStrip header)) 0
      (none, none) with
  | (some idPos, some namePos) => mapperLoadRows idPos namePos rawDataList []
  | _ => .error (("BadHeaderError: could not read header").toList)

/-- C3: contrary to the claim, a duplicate key with non-empty values does
not abort the load.  Python dict assignment never raises on an existing
key (despite the source comment saying it should throw on dupes), so the
second value silently replaces the first: a file mapping key 1 to A and
then 1 to B loads successfully with 1 bound to B. -/
theorem c3_bug_duplicate_key_overwrites :
    mapperLoad ("ID,NAME").toList [("1,A").toList, ("1,B").toList]
        ("ID").toList ("NAME").toList
      = .ok [(("1").toList, ("B").toList)] := rfl

/-!
PlayerStats and MatchStats (nested classes of AugmentedGamesfileGenerator).
-/

/-- Model of the local intorzero helper of PlayerStats.__init__: strip,
return 0 for an empty string, otherwise int() (which can raise). -/
def pyIntOrZero (i : Str) : Option Int :=
  let t := pyStrip i
  if ¬ t = [] then pyInt t else some 0

structure PlayerStats where
  firstServesIn : Int
  firstServes : Int
  aces : Int
  doubleFaults : Int
  unforcedErrs : Int
  firstServePtsWon : Int
  secondServePtsWon : Int
  winners : Int
  breakPtsWon : Int
  breakPts : Int
  recvPtsWon : Int
  recvPts : Int
  netApproachesWon : Int
  netApproaches : Int
  totPtsWon : Int
  fastestServeKph : Int
  avgFirstServeKph : Int
  avgSecondServeKph : Int
deriving DecidableEq, Repr

/-- Model of PlayerStats.__init__: each of the eighteen raw string fields
goes through intorzero, whose int() conversion can raise. -/
def PlayerStats.init (firstServesIn firstServes aces doubleFaults
    unforcedErrs firstServePtsWon secondServePtsWon winners breakPtsWon
    breakPts recvPtsWon recvPts netApproachesWon netApproaches totPtsWon
    fastestServeKph avgFirstServeKph avgSecondServeKph : Str) :
    Option PlayerStats :=
  match pyIntOrZero firstServesIn, pyIntOrZero firstServes, pyIntOrZero aces,
      pyIntOrZero doubleFaults, pyIntOrZero unforcedErrs,
      pyIntOrZero firstServePtsWon, pyIntOrZero secondServePtsWon,
      pyIntOrZero winners, pyIntOrZero breakPtsWon, pyIntOrZero breakPts,
      pyIntOrZero recvPtsWon, pyIntOrZero recvPts,
      pyIntOrZero netApproachesWon, pyIntOrZero netApproaches,
      pyIntOrZero totPtsWon, pyIntOrZero fastestServeKph,
      pyIntOrZero avgFirstServeKph, pyIntOrZero avgSecondServeKph with
  | some v1, some v2, some v3, some v4, some v5, some v6, some v7, some v8,
    some v9, some v10, some v11, some v12, some v13, some v14, some v15,
    some v16, some v17, some v18 =>
    some (PlayerStats.mk v1 v2 v3 v4 v5 v6 v7 v8 v9 v10 v11 v12 v13 v14 v15
      v16 v17 v18)
  | _, _, _, _, _, _, _, _, _, _, _, _, _, _, _, _, _, _ => none

/-- Model of PlayerStats.validate: the fixed list of heuristic
cross-checks, appending the flagged column names in source order. -/
def PlayerStats.validate (ps : PlayerStats) : List Str :=
  let issues : List Str := []
  let issues := if ps.firstServesIn ≥ ps.firstServes
    then issues ++ [("firstSvIn").toList, ("firstSvTot").toList] else issues
  let issues := if ps.aces ≥ ps.firstServesIn
    then issues ++ [("aces").toList] else issues
  let issues := if ps.doubleFaults > ps.firstServes
    then issues ++ [("doubleFaults").toList] else issues
  let issues := if ps.firstServePtsWon > ps.firstServesIn
    then issues ++ [("firstSvPtsWon").toList] else issues
  let firstServeMisses := ps.firstServes - ps.firstServesIn
  let issues := if ps.secondServePtsWon > firstServeMisses
    then issues ++ [("secondSvPtsWon").toList] else issues
  let issues := if ps.winners > ps.totPtsWon
    then issues ++ [("winners").toList] else issues
  let issues := if ps.breakPtsWon > ps.breakPts ∨ ps.breakPtsWon ≥ ps.totPtsWon
    then issues ++ [("breakPtsWon").toList] else issues
  let issues := if ps.recvPtsWon > ps.recvPts ∨ ps.recvPtsWon ≥ ps.totPtsWon
    then issues ++ [("recvPtsWon").toList] else issues
  let issues := if ps.netApproachesWon > ps.netApproaches
      ∨ ps.netApproachesWon ≥ ps.totPtsWon
    then issues ++ [("netApproachWon").toList] else issues
  let issues := if ps.avgFirstServeKph ≥ ps.fastestServeKph
    then issues ++ [("avgFirstSvKph").toList, ("fastestServeKph").toList]
    else issues
  let issues := if ps.avgSecondServeKph ≥ ps.fastestServeKph
      ∨ ps.avgSecondServeKph > ps.avgFirstServeKph
    then issues ++ [("avgSecondSvKph").toList, ("fastestServeKph").toList]
    else issues
  issues

/-- The eighteen comma-separated fields of str(PlayerStats). -/
def PlayerStats.fields (ps : PlayerStats) : List Str :=
  [intRepr ps.firstServesIn, intRepr ps.firstServes, intRepr ps.aces,
   intRepr ps.doubleFaults, intRepr ps.unforcedErrs,
   intRepr ps.firstServePtsWon, intRepr ps.secondServePtsWon,
   intRepr ps.winners, intRepr ps.breakPtsWon, intRepr ps.breakPts,
   intRepr ps.recvPtsWon, intRepr ps.recvPts, intRepr ps.netApproachesWon,
   intRepr ps.netApproaches, intRepr ps.totPtsWon,
   intRepr ps.fastestServeKph, intRepr ps.avgFirstServeKph,
   intRepr ps.avgSecondServeKph]

def PlayerStats.str (ps : PlayerStats) : Str :=
  List.intercalate [','] ps.fields

/-- A raw stats field that is blank or a literal zero, the forms used for
missing statistics. -/
def blankOrZero (s : Str) : Prop := pyStrip s = [] ∨ pyStrip s = ['0']

theorem blankOrZero_val {s : Str} (h : blankOrZero s) :
    pyIntOrZero s = some 0 := by
  rcases h with h | h
  · simp [pyIntOrZero, h]
  · simp only [pyIntOrZero, h]
    decide

/-- C10: a PlayerStats built from eighteen blank-or-zero raw fields always
validates to a non-empty suspect list that includes firstSvIn, firstSvTot,
aces, breakPtsWon, recvPtsWon, netApproachWon, avgFirstSvKph and
fastestServeKph, because the non-strict comparisons hold at 0 and 0. -/
theorem c10_blank_stats_always_suspect
    (a1 a2 a3 a4 a5 a6 a7 a8 a9 a10 a11 a12 a13 a14 a15 a16 a17 a18 : Str)
    (h1 : blankOrZero a1) (h2 : blankOrZero a2) (h3 : blankOrZero a3)
    (h4 : blankOrZero a4) (h5 : blankOrZero a5) (h6 : blankOrZero a6)
    (h7 : blankOrZero a7) (h8 : blankOrZero a8) (h9 : blankOrZero a9)
    (h10 : blankOrZero a10) (h11 : blankOrZero a11) (h12 : blankOrZero a12)
    (h13 : blankOrZero a13) (h14 : blankOrZero a14) (h15 : blankOrZero a15)
    (h16 : blankOrZero a16) (h17 : blankOrZero a17) (h18 : blankOrZero a18)
    (ps : PlayerStats)
    (hps : PlayerStats.init a1 a2 a3 a4 a5 a6 a7 a8 a9 a10 a11 a12 a13 a14
        a15 a16 a17 a18 = some ps) :
    ¬ ps.validate = []
    ∧ ("firstSvIn").toList ∈ ps.validate
    ∧ ("firstSvTot").toList ∈ ps.validate
    ∧ ("aces").toList ∈ ps.validate
    ∧ ("breakPtsWon").toList ∈ ps.validate
    ∧ ("recvPtsWon").toList ∈ ps.validate
    ∧ ("netApproachWon").toList ∈ ps.validate
    ∧ ("avgFirstSvKph").toList ∈ ps.validate
    ∧ ("fastestServeKph").toList ∈ ps.validate := by
  rw [PlayerStats.init, blankOrZero_val h1, blankOrZero_val h2,
    blankOrZero_val h3, blankOrZero_val h4, blankOrZero_val h5,
    blankOrZero_val h6, blankOrZero_val h7, blankOrZero_val h8,
    blankOrZero_val h9, blankOrZero_val h10, blankOrZero_val h11,
    blankOrZero_val h12, blankOrZero_val h13, blankOrZero_val h14,
    blankOrZero_val h15, blankOrZero_val h16, blankOrZero_val h17,
    blankOrZero_val h18] at hps
  simp only [Option.bind_eq_bind, Option.some_bind, Option.some.injEq] at hps
  subst hps
  decide

theorem c10_blank_stats_always_suspect_witness :
    ¬ (PlayerStats.mk 0 0 0 0 0 0 0 0 0 0 0 0 0 0 0 0 0 0).validate = []
    ∧ ("firstSvIn").toList
        ∈ (PlayerStats.mk 0 0 0 0 0 0 0 0 0 0 0 0 0 0 0 0 0 0).validate
    ∧ ("firstSvTot").toList
        ∈ (PlayerStats.mk 0 0 0 0 0 0 0 0 0 0 0 0 0 0 0 0 0 0).validate
    ∧ ("aces").toList
        ∈ (PlayerStats.mk 0 0 0 0 0 0 0 0 0 0 0 0 0 0 0 0 0 0).validate
    ∧ ("breakPtsWon").toList
        ∈ (PlayerStats.mk 0 0 0 0 0 0 0 0 0 0 0 0 0 0 0 0 0 0).validate
    ∧ ("recvPtsWon").toList
        ∈ (PlayerStats.mk 0 0 0 0 0 0 0 0 0 0 0 0 0 0 0 0 0 0).validate
    ∧ ("netApproachWon").toList
        ∈ (PlayerStats.mk 0 0 0 0 0 0 0 0 0 0 0 0 0 0 0 0 0 0).validate
    ∧ ("avgFirstSvKph").toList
        ∈ (PlayerStats.mk 0 0 0 0 0 0 0 0 0 0 0 0 0 0 0 0 0 0).validate
    ∧ ("fastestServeKph").toList
        ∈ (PlayerStats.mk 0 0 0 0 0 0 0 0 0 0 0 0 0 0 0 0 0 0).validate :=
  c10_blank_stats_always_suspect [] [] [] [] [] [] [] [] [] [] [] [] [] []
    [] [] [] [] (Or.inl rfl) (Or.inl rfl) (Or.inl rfl) (Or.inl rfl)
    (Or.inl rfl) (Or.inl rfl) (Or.inl rfl) (Or.inl rfl) (Or.inl rfl)
    (Or.inl rfl) (Or.inl rfl) (Or.inl rfl) (Or.inl rfl) (Or.inl rfl)
    (Or.inl rfl) (Or.inl rfl) (Or.inl rfl) (Or.inl rfl)
    (PlayerStats.mk 0 0 0 0 0 0 0 0 0 0 0 0 0 0 0 0 0 0) rfl

/-- Whether the first list is an initial segment of the second. -/
def strStarts : Str → Str → Bool
  | [], _ => true
  | _ :: _, [] => false
  | p :: ps, c :: cs => p = c && strStarts ps cs

/-- Model of Python s.replace(pat, ""): removes non-overlapping
occurrences of pat from left to right. -/
def removeOccurrences (pat : Str) : Str → Str
  | [] => []
  | c :: rest =>
    if strStarts pat (c :: rest) ∧ ¬ pat = [] then
      removeOccurrences pat (rest.drop (pat.length - 1))
    else c :: removeOccurrences pat rest
termination_by s => s.length
decreasing_by
· simp only [List.length_cons, List.length_drop]
  omega
· simp only [List.length_cons]
  omega

structure MatchStats where
  winnerStats : PlayerStats
  loserStats : PlayerStats
  matchTime : Option Int
  suspectStats : List Str
  validated : Bool
deriving DecidableEq

/-- Model of MatchStats.__init__: the raw match-time string is
quote-stripped and has the literal date prefix of the source database
format removed; a non-empty remainder is split on the colon and converted
to minutes (both int() calls and the index into the second part can
raise); an empty remainder leaves the duration as Python None. -/
def MatchStats.init (winnerStats loserStats : PlayerStats)
    (matchTime : Str) : Option MatchStats :=
  let mt := removeOccurrences ("12/30/99 ").toList (removeChar '"' matchTime)
  if ¬ mt = [] then
    match pySplit ':' mt with
    | t0 :: t1 :: _ =>
      match pyInt t0, pyInt t1 with
      | some hh, some mm =>
        some ⟨winnerStats, loserStats, some (hh * 60 + mm), [], false⟩
      | _, _ => none
    | _ => none
  else some ⟨winnerStats, loserStats, none, [], false⟩

/-- Model of MatchStats.addSuspectColumn. -/
def MatchStats.addSuspectColumn (ms : MatchStats) (colName : Str) :
    MatchStats :=
  { ms with suspectStats := ms.suspectStats ++ [colName] }

/-- Model of MatchStats.validate: raises on a repeated call; otherwise
collects the previously notified suspect columns, both sides' flagged
fields prefixed by W and L, and the duration check (missing duration, a
zero duration, which is falsy in Python, or one above 300 minutes), then
stores either the count-prefixed list or the single marker 0. -/
def durationFlags : Option Int → List Str
  | some t =>
    if ¬ t = 0 then
      if 300 < t then [("Duration").toList] else []
    else [("Duration").toList]
  | none => [("Duration").toList]

def MatchStats.validate (ms : MatchStats) : Except Str MatchStats :=
  if ms.validated then
    .error (("WARNING: Repeated call to MatchStats.validate()").toList)
  else
    let winnerProbs := ms.winnerStats.validate
    let loserProbs := ms.loserStats.validate
    let suspectStats :=
      ms.suspectStats
        ++ winnerProbs.map (fun wp => 'W' :: wp)
        ++ loserProbs.map (fun lp => 'L' :: lp)
        ++ durationFlags ms.matchTime
    if ¬ suspectStats = [] then
      .ok { ms with
            suspectStats := (natRepr suspectStats.length ++ [':'])
                :: suspectStats,
            validated := true }
    else
      .ok { ms with suspectStats := [['0']], validated := true }

def pyOptIntStr : Option Int → Str
  | none => ("None").toList
  | some n => intRepr n

/-- The string form of a MatchStats row fragment, as str(MatchStats)
produces it: winner stats, loser stats, duration, space-joined suspect
column list. -/
def MatchStats.str (ms : MatchStats) : Str :=
  ms.winnerStats.str ++ ',' :: ms.loserStats.str
    ++ ',' :: pyOptIntStr ms.matchTime
    ++ ',' :: List.intercalate [' '] ms.suspectStats

/-- C8: MatchStats.validate succeeds at most once per instance: the state
it returns is marked validated, a second call on that state raises the
repeated-call error rather than being ignored, and the first call leaves
the suspect list as either the single marker 0 or a count-prefixed list
of the flagged column names (the embedding is a pure function, so the
effect on equal states is identical by construction). -/
theorem c8_validate_enforced_single_call (ms ms2 : MatchStats)
    (h : MatchStats.validate ms = .ok ms2) :
    MatchStats.validate ms2
        = .error (("WARNING: Repeated call to MatchStats.validate()").toList)
    ∧ ms2.validated = true
    ∧ (ms2.suspectStats = [['0']]
       ∨ ∃ rest, ¬ rest = []
           ∧ ms2.suspectStats = (natRepr rest.length ++ [':']) :: rest) := by
  rw [MatchStats.validate] at h
  split at h
  · simp at h
  · simp only [] at h
    split at h
    · rw [Except.ok.injEq] at h
      subst h
      refine ⟨by simp [MatchStats.validate], rfl, Or.inr ⟨_, ?_, rfl⟩⟩
      assumption
    · rw [Except.ok.injEq] at h
      subst h
      exact ⟨by simp [MatchStats.validate], rfl, Or.inl rfl⟩

def samplePlayerStats : PlayerStats :=
  PlayerStats.mk 0 0 0 0 0 0 0 0 0 0 0 0 0 0 0 0 0 0

def sampleMatchStats : MatchStats :=
  MatchStats.mk samplePlayerStats samplePlayerStats (some 95) [] false

/-- The state sampleMatchStats reaches after its first validation. -/
def sampleMatchStatsValidated : MatchStats :=
  match MatchStats.validate sampleMatchStats with
  | .ok m => m
  | .error _ => sampleMatchStats

theorem c8_validate_enforced_single_call_witness :
    MatchStats.validate sampleMatchStatsValidated
        = .error (("WARNING: Repeated call to MatchStats.validate()").toList)
    ∧ sampleMatchStatsValidated.validated = true
    ∧ (sampleMatchStatsValidated.suspectStats = [['0']]
       ∨ ∃ rest, ¬ rest = []
           ∧ sampleMatchStatsValidated.suspectStats
               = (natRepr rest.length ++ [':']) :: rest) :=
  c8_validate_enforced_single_call sampleMatchStats sampleMatchStatsValidated
    rfl

/-!
Date arithmetic for the age computation.  Python computes the day
difference with datetime.strptime on both Y/m/d strings (raising on a
malformed or out-of-range date) and renders days/365.0 with one decimal.
-/

def isLeapYear (y : Int) : Bool := (y % 4 = 0 ∧ ¬ y % 100 = 0) ∨ y % 400 = 0

def daysInMonth (y : Int) (m : Nat) : Nat :=
  if m = 2 then (if isLeapYear y then 29 else 28)
  else if m = 4 ∨ m = 6 ∨ m = 9 ∨ m = 11 then 30 else 31

/-- Model of datetime.strptime(s, "%Y/%m/%d"): three slash-separated
numeric parts, with the month, day and year validated against the
calendar (out of range raises). -/
def pyStrptimeYmd (s : Str) : Option (Int × Nat × Nat) :=
  match pySplit '/' s with
  | [ys, ms, ds] =>
    match pyInt ys, pyInt ms, pyInt ds with
    | some y, some m, some d =>
      if 1 ≤ y ∧ y ≤ 9999 ∧ 1 ≤ m ∧ m ≤ 12 ∧ 1 ≤ d
          ∧ d ≤ (daysInMonth y m.toNat : Int) then
        some (y, m.toNat, d.toNat)
      else none
    | _, _, _ => none
  | _ => none

/-- Day number of a Gregorian calendar date (days since a fixed epoch);
only differences of these values are used.  All reachable years are
positive, where truncating and flooring division agree. -/
def daysFromCivil (y : Int) (m d : Nat) : Int :=
  let y2 : Int := if m ≤ 2 then y - 1 else y
  let era : Int := (if 0 ≤ y2 then y2 else y2 - 399) / 400
  let yoe : Int := y2 - era * 400
  let mp : Int := ((m : Int) + 9) % 12
  let doy : Int := (153 * mp + 2) / 5 + (d : Int) - 1
  let doe : Int := yoe * 365 + yoe / 4 - yoe / 100 + doy
  era * 146097 + doe - 719468

/-- Python renders the age as "%.1f" applied to days/365.0.  Exact binary
floating-point formatting is outside this embedding; the rendering is
modelled as the rational value rounded to one decimal, half away from
zero.  No theorem of this file depends on the rendered digits. -/
def formatAge1 (days : Int) : Str :=
  let n : Nat := days.natAbs
  let t : Nat := (20 * n + 365) / 730
  let sign : Str := if days < 0 ∧ ¬ t = 0 then ['-'] else []
  sign ++ natRepr (t / 10) ++ '.' :: natRepr (t % 10)

structure PlayerInfo where
  id : Str
  name : Str
  dob : Str
deriving DecidableEq

/-- Model of PlayerInfo.__init__: the date of birth is stored converted to
YYYY/MM/DD; a conversion failure propagates to the caller. -/
def PlayerInfo.init (_id name dob : Str) : Option PlayerInfo :=
  (convertOnCourtDateToYmd dob).map (fun d => ⟨_id, name, d⟩)

/-- Model of PlayerInfo.getAgeAsOf: parses both dates (either parse can
raise), takes the day difference and renders it in years. -/
def PlayerInfo.getAgeAsOf (p : PlayerInfo) (asOfDateStr : Str) :
    Option Str :=
  match pyStrptimeYmd asOfDateStr, pyStrptimeYmd p.dob with
  | some (y1, m1, d1), some (y0, m0, d0) =>
    some (formatAge1 (daysFromCivil y1 m1 d1 - daysFromCivil y0 m0 d0))
  | _, _ => none

structure TourInfo where
  id : Str
  name : Str
  surface : Str
  date : Str
  country : Str
deriving DecidableEq

structure MatchKey where
  winnerID : Str
  loserID : Str
  tourID : Str
  roundID : Str
deriving DecidableEq

/-- The composite name of a MatchKey, the slash join of the four IDs; the
source's equality and hashing go through this name. -/
def MatchKey.name (k : MatchKey) : Str :=
  k.winnerID ++ '/' :: k.loserID ++ '/' :: k.tourID ++ '/' :: k.roundID

/-- Model of MatchKey.__init__: raises ValueError when any component is
empty (Python falsiness of the empty string). -/
def MatchKey.init (winnerID loserID tourID roundID : Str) :
    Option MatchKey :=
  if ¬ winnerID = [] ∧ ¬ loserID = [] ∧ ¬ tourID = [] ∧ ¬ roundID = [] then
    some ⟨winnerID, loserID, tourID, roundID⟩
  else none

structure Match where
  winner : PlayerInfo
  loser : PlayerInfo
  tour : Str
  round : Str
  surface : Str
  country : Str
  date : Option Str
  result : ResultInfo
deriving DecidableEq

/-- Model of Match.__init__(winnerI, loserI, tour, tround, surf, country,
result, gdate): the six descriptive fields are stored under the parameter
names the source uses; the date conversion's failure is swallowed (the
date stays Python None); the stripped result string is parsed and a parse
failure aborts the construction. -/
def Match.init (winnerI loserI : PlayerInfo)
    (tour tround surf country : Str) (result gdate : Str) : Option Match :=
  match setResultInfo (pyStrip result) with
  | some ri =>
    some { winner := winnerI, loser := loserI, tour := tour,
           round := tround, surface := surf, country := country,
           date := convertOnCourtDateToYmd gdate, result := ri }
  | none => none

def Match.HEADER : Str :=
  ("WName,Wage,LName,Lage,TourName,Surface,Country,Round,WSets,LSets," ++
   "WGames,LGames,TotalGames,WTieBreaks,LTieBreaks," ++
   "TotalTieBreaks,Date").toList

/-- The comma-separated fields of str(Match), in print order; none models
an exception raised while printing (a missing date, or a stored date the
age computation cannot parse). -/
def Match.fields (m : Match) : Option (List Str) :=
  match m.date with
  | none => none
  | some d =>
    match m.winner.getAgeAsOf d with
    | none => none
    | some wa =>
      match m.loser.getAgeAsOf d with
      | none => none
      | some la =>
        some ([m.winner.name, wa, m.loser.name, la, m.tour, m.round,
               m.surface, m.country] ++ m.result.fields ++ [d])

def Match.str (m : Match) : Option Str :=
  (m.fields).map (List.intercalate [','])

/-!
The join and output pipeline of AugmentedGamesfileGenerator.
-/

def PLAYER_STATS_COUNT : Nat := 18

def MatchStats.HEADER : Str :=
  ("firstSvIn,firstSvTot,aces,doubleFaults,unforcedErrs," ++
   "firstSvPtsWon,secondSvPtsWon,winners,breakPtsWon," ++
   "breakPtsTot,recvPtsWon,recvPtsTot,netApproachWon," ++
   "netApproachTot,totPtsWon,fastestServeKph,avgFirstSvKph," ++
   "avgSecondSvKph").toList

/-- Model of MatchStats.getFullHeader: checks the per-player header
element count against PLAYER_STATS_COUNT (raising ValueError otherwise),
then joins the W-prefixed and L-prefixed copies with Duration and
SuspectColumns appended. -/
def MatchStats.getFullHeader : Except Str Str :=
  let headerElems := pySplit ',' MatchStats.HEADER
  if ¬ headerElems.length = PLAYER_STATS_COUNT then
    .error (("ValueError: player stats and header counts differ").toList)
  else
    .ok (List.intercalate [',']
      (headerElems.map (fun x => 'W' :: x)
        ++ headerElems.map (fun x => 'L' :: x)
        ++ [("Duration").toList, ("SuspectColumns").toList]))

/-- Model of _createDummyStats: one n/a per full-header column. -/
def createDummyStats : Except Str Str :=
  match MatchStats.getFullHeader with
  | .ok fh =>
    .ok (List.intercalate [',']
      ((pySplit ',' fh).map (fun _ => ("n/a").toList)))
  | .error e => .error e

/-- The header line dump writes: the Match header, the full statistics
header and the MatchKey column. -/
def outfileHeader : Except Str Str :=
  match MatchStats.getFullHeader with
  | .ok fh => .ok (Match.HEADER ++ ',' :: fh ++ ',' :: ("MatchKey").toList)
  | .error e => .error e

/-- The header column count dump checks every row against. -/
def nHeaderColumns : Nat :=
  match outfileHeader with
  | .ok hdr => (pySplit ',' (pyStrip hdr)).length
  | .error _ => 0

/-- The per-key loop of dump.  The first component collects the rows
appended to the output buffer in order; a second component of some
message models an exception aborting the dump there (an unknown key, a
failure inside str(Match), or the column-count integrity check), with no
further row emitted. -/
def dumpGo (n : Nat) (matchesMap : MatchKey → Option Match)
    (stats : MatchKey → Option MatchStats) (dummy : Str) :
    List MatchKey → List Str × Option Str
  | [] => ([], none)
  | k :: ks =>
    match matchesMap k with
    | none => ([], some (("KeyError: match missing for key").toList))
    | some m =>
      let statsStr :=
        match stats k with
        | some st => st.str
        | none => dummy
      match Match.str m with
      | none => ([], some (("Exception while formatting match").toList))
      | some ms =>
        let fullMatchRow := ms ++ ',' :: statsStr ++ ',' :: k.name
        if ¬ (pySplit ',' fullMatchRow).length = n then
          ([], some (("Header and row column counts differ").toList))
        else
          let r := dumpGo n matchesMap stats dummy ks
          (fullMatchRow :: r.1, r.2)

/-- Model of AugmentedGamesfileGenerator.dump over the loaded state: the
ordered key list, the key-to-match mapping and the key-to-stats mapping
(a key absent from the stats mapping gets the dummy row). -/
def dump (keys : List MatchKey) (matchesMap : MatchKey → Option Match)
    (stats : MatchKey → Option MatchStats) : List Str × Option Str :=
  match outfileHeader with
  | .error e => ([], some e)
  | .ok hdr =>
    match createDummyStats with
    | .error e => ([], some e)
    | .ok dummy =>
      dumpGo ((pySplit ',' (pyStrip hdr)).length) matchesMap stats dummy keys

/-- The Match constructor application exactly as the load pipeline
performs it: the tournament name, surface and country and the round name
are passed positionally into the constructor's tour, tround, surf and
country parameters. -/
def buildMatch (ti : TourInfo) (winnerInfo loserInfo : PlayerInfo)
    (roundName resultStr dateStr : Str) : Option Match :=
  Match.init winnerInfo loserInfo ti.name ti.surface ti.country roundName
    resultStr dateStr

/-- Per-row body of the summary-loading loop of
AugmentedGamesfileGenerator.load.  Failures the source does not catch (a
row too short for the key or date columns, an empty key component, an
unknown tournament ID, a blank date with no tournament fallback) abort
the run; failures raised inside the try block (an unknown round ID, a
missing result column, a result string Match.__init__ rejects) skip the
row, as do unresolvable players and a doubles pairing on both sides. -/
def processGamesRow (tmap : Str → Option TourInfo)
    (pmap : Str → Option PlayerInfo) (rmap : Str → Option Str)
    (acc : List (MatchKey × Match)) (row : Str) :
    Except Str (List (MatchKey × Match)) :=
  let elements := pySplit ',' (pyStrip (removeChar '"' row))
  match elements.get? 0, elements.get? 1, elements.get? 2,
      elements.get? 3 with
  | some winnerID, some loserID, some tourID, some roundID =>
    match MatchKey.init winnerID loserID tourID roundID with
    | none => .error (("ValueError: Bad MatchKey formed").toList)
    | some matchKey =>
      match tmap tourID with
      | none => .error (("KeyError: unknown tournament").toList)
      | some tourInfo =>
        match pmap winnerID, pmap loserID with
        | some winnerInfo, some loserInfo =>
          if winnerInfo.name.contains '/' && loserInfo.name.contains '/' then
            .ok acc
          else
            match elements.get? 5 with
            | none => .error (("IndexError: summary row too short").toList)
            | some d5 =>
              let matchDateStr := if d5 = [] then tourInfo.date else d5
              if matchDateStr = [] then
                .error (("No match or tour date for ").toList
                  ++ matchKey.name)
              else
                match rmap roundID, elements.get? 4 with
                | some roundName, some resultStr =>
                  match buildMatch tourInfo winnerInfo loserInfo roundName
                      resultStr matchDateStr with
                  | some m => .ok (acc ++ [(matchKey, m)])
                  | none => .ok acc
                | _, _ => .ok acc
        | _, _ => .ok acc
  | _, _, _, _ => .error (("IndexError: summary row too short").toList)

/-- The summary-loading loop from a given accumulated state. -/
def loadGamesRowsFrom (tmap : Str → Option TourInfo)
    (pmap : Str → Option PlayerInfo) (rmap : Str → Option Str)
    (acc : List (MatchKey × Match)) (rows : List Str) :
    Except Str (List (MatchKey × Match)) :=
  rows.foldlM (processGamesRow tmap pmap rmap) acc

/-- The summary phase of AugmentedGamesfileGenerator.load: the rows of
the games file (header already skipped), in order, against the tournament,
player and round providers.  The result is the ordered key list with the
match stored for each key. -/
def loadGamesRows (tmap : Str → Option TourInfo)
    (pmap : Str → Option PlayerInfo) (rmap : Str → Option Str)
    (rows : List Str) : Except Str (List (MatchKey × Match)) :=
  loadGamesRowsFrom tmap pmap rmap [] rows

/-- Player-building loop of PlayerMapper.load over the already-loaded
ID-to-name and ID-to-DOB maps: a name containing the pairing separator is
skipped, a player without a DOB entry is skipped with a warning, and a
PlayerInfo construction failure (malformed date of birth) is not caught,
aborting the load. -/
def playerMapperBuildGo (dobMap : List (Str × Str)) :
    List (Str × Str) → List (Str × PlayerInfo) →
    Except Str (List (Str × PlayerInfo))
  | [], acc => .ok acc
  | (playerid, name) :: rest, acc =>
    if name.contains '/' then playerMapperBuildGo dobMap rest acc
    else
      match alookup playerid dobMap with
      | none => playerMapperBuildGo dobMap rest acc
      | some dob =>
        match PlayerInfo.init playerid name dob with
        | some pinfo =>
          playerMapperBuildGo dobMap rest (dictInsert acc playerid pinfo)
        | none => .error (("ValueError: bad date of birth").toList)

/-- Model of the PlayerInfo-building stage of PlayerMapper.load; the
resulting map backs getPlayerInfo, which returns None for an absent ID. -/
def playerMapperBuild (nameMap dobMap : List (Str × Str)) :
    Except Str (List (Str × PlayerInfo)) :=
  playerMapperBuildGo dobMap nameMap []

theorem dumpGo_spec (n : Nat) (matchesMap : MatchKey → Option Match)
    (stats : MatchKey → Option MatchStats) (dummy : Str)
    (keys : List MatchKey) :
    (∀ row ∈ (dumpGo n matchesMap stats dummy keys).1,
      (pySplit ',' row).length = n)
    ∧ ((dumpGo n matchesMap stats dummy keys).2 = none →
      (dumpGo n matchesMap stats dummy keys).1.length = keys.length) := by
  induction keys with
  | nil => exact ⟨fun row hrow => absurd hrow (by simp [dumpGo]), fun _ => by
      simp [dumpGo]⟩
  | cons k ks ih =>
    obtain ⟨ih1, ih2⟩ := ih
    rcases hm : matchesMap k with _ | m
    · constructor
      · intro row hrow
        simp only [dumpGo, hm] at hrow
        simp at hrow
      · intro h2
        simp only [dumpGo, hm] at h2 ⊢
        simp at h2
    · rcases hs : Match.str m with _ | ms
      · constructor
        · intro row hrow
          simp only [dumpGo, hm, hs] at hrow
          simp at hrow
        · intro h2
          simp only [dumpGo, hm, hs] at h2 ⊢
          simp at h2
      · by_cases hc :
          (pySplit ','
            (ms ++ ',' ::
              (match stats k with
               | some st => st.str
               | none => dummy) ++ ',' :: k.name)).length = n
        · constructor
          · intro row hrow
            simp only [dumpGo, hm, hs, if_neg (not_not_intro hc)] at hrow
            rcases List.mem_cons.mp hrow with hrow | hrow
            · rw [hrow]
              exact hc
            · exact ih1 row hrow
          · intro h2
            simp only [dumpGo, hm, hs, if_neg (not_not_intro hc)] at h2 ⊢
            rw [List.length_cons, ih2 h2, List.length_cons]
        · constructor
          · intro row hrow
            simp only [dumpGo, hm, hs, if_pos hc] at hrow
            simp at hrow
          · intro h2
            simp only [dumpGo, hm, hs, if_pos hc] at h2 ⊢
            simp at h2

/-- C1: every row emitted by dump has exactly the header's comma-separated
field count (this also holds of the rows emitted before an abort); when a
composed row's field count differs from the header's, the dump aborts
with an exception there, before that or any later row is emitted; and a
completed dump emitted one row per key, never skipping a row. -/
theorem c1_dump_row_integrity (keys : List MatchKey)
    (matchesMap : MatchKey → Option Match)
    (stats : MatchKey → Option MatchStats) :
    (∀ row ∈ (dump keys matchesMap stats).1,
      (pySplit ',' row).length = nHeaderColumns)
    ∧ ((dump keys matchesMap stats).2 = none →
      (dump keys matchesMap stats).1.length = keys.length) := by
  rw [dump]
  cases ho : outfileHeader with
  | error e => exact ⟨fun row hrow => absurd hrow (by simp), fun h2 => by
      simp at h2⟩
  | ok hdr =>
    cases hd : createDummyStats with
    | error e => exact ⟨fun row hrow => absurd hrow (by simp), fun h2 => by
        simp at h2⟩
    | ok dummy =>
      have hn : nHeaderColumns = (pySplit ',' (pyStrip hdr)).length := by
        rw [nHeaderColumns, ho]
      rw [hn]
      exact dumpGo_spec _ _ _ _ keys

def samplePlayerA : PlayerInfo :=
  ⟨("1").toList, ("Alden").toList, ("1972/05/13").toList⟩

def samplePlayerB : PlayerInfo :=
  ⟨("2").toList, ("Breck").toList, ("1975/02/03").toList⟩

def sampleKey : MatchKey :=
  ⟨("1").toList, ("2").toList, ("T").toList, ("R").toList⟩

def sampleMatch : Match :=
  { winner := samplePlayerA, loser := samplePlayerB,
    tour := ("Wmb").toList, round := ("Grass").toList,
    surface := ("GBR").toList, country := ("Final").toList,
    date := some (("2005/06/20").toList),
    result := ⟨2, 0, [6, 6], [4, 4]⟩ }

theorem c1_dump_row_integrity_witness :
    (∀ row ∈ (dump [sampleKey] (fun _ => some sampleMatch)
        (fun _ => none)).1,
      (pySplit ',' row).length = nHeaderColumns)
    ∧ (dump [sampleKey] (fun _ => some sampleMatch)
        (fun _ => none)).1.length = [sampleKey].length :=
  ⟨(c1_dump_row_integrity [sampleKey] (fun _ => some sampleMatch)
      (fun _ => none)).1,
   (c1_dump_row_integrity [sampleKey] (fun _ => some sampleMatch)
      (fun _ => none)).2 rfl⟩

theorem Match.fields_get (m : Match) (fields : List Str)
    (hf : m.fields = some fields) :
    fields.get? 4 = some m.tour ∧ fields.get? 5 = some m.round
    ∧ fields.get? 6 = some m.surface ∧ fields.get? 7 = some m.country := by
  rw [Match.fields] at hf
  cases hd : m.date with
  | none => rw [hd] at hf; simp at hf
  | some d =>
    rw [hd] at hf
    cases hw : m.winner.getAgeAsOf d with
    | none => simp [hw] at hf
    | some wa =>
      cases hl : m.loser.getAgeAsOf d with
      | none => simp [hw, hl] at hf
      | some la =>
        simp only [hw, hl, Option.some.injEq] at hf
        subst hf
        exact ⟨rfl, rfl, rfl, rfl⟩

/-- C5: the writer's field order agrees with the header order despite the
Match constructor being invoked with arguments in a different order than
its parameter names suggest: for a match built by the pipeline's
constructor call, the printed fields at the header positions labelled
TourName, Surface, Country and Round carry the tournament name, the
surface, the country and the round name respectively. -/
theorem c5_header_field_alignment (ti : TourInfo) (wi li : PlayerInfo)
    (roundName resultStr dateStr : Str) (m : Match) (fields : List Str)
    (hm : buildMatch ti wi li roundName resultStr dateStr = some m)
    (hf : m.fields = some fields) :
    (pySplit ',' Match.HEADER).get? 4 = some (("TourName").toList)
    ∧ (pySplit ',' Match.HEADER).get? 5 = some (("Surface").toList)
    ∧ (pySplit ',' Match.HEADER).get? 6 = some (("Country").toList)
    ∧ (pySplit ',' Match.HEADER).get? 7 = some (("Round").toList)
    ∧ fields.get? 4 = some ti.name
    ∧ fields.get? 5 = some ti.surface
    ∧ fields.get? 6 = some ti.country
    ∧ fields.get? 7 = some roundName := by
  rw [buildMatch, Match.init] at hm
  cases hri : setResultInfo (pyStrip resultStr) with
  | none => rw [hri] at hm; simp at hm
  | some ri =>
    rw [hri, Option.some.injEq] at hm
    subst hm
    obtain ⟨g4, g5, g6, g7⟩ := Match.fields_get _ _ hf
    exact ⟨by decide, by decide, by decide, by decide, g4, g5, g6, g7⟩

def sampleTourG : TourInfo :=
  ⟨("T").toList, ("Wmb").toList, ("Grass").toList,
   ("06/19/05 00:00:00").toList, ("GBR").toList⟩

/-- The match the pipeline's constructor call builds from sampleTourG and
the sample players (falls back to sampleMatch on failure; the witness
proof shows construction in fact succeeds). -/
def sampleBuiltMatch : Match :=
  match buildMatch sampleTourG samplePlayerA samplePlayerB
      (("Final").toList) (("6-4 6-4").toList)
      (("06/20/05 10:00:00").toList) with
  | some m => m
  | none => sampleMatch

def sampleBuiltFields : List Str :=
  match Match.fields sampleBuiltMatch with
  | some fs => fs
  | none => []

theorem c5_header_field_alignment_witness :
    (pySplit ',' Match.HEADER).get? 4 = some (("TourName").toList)
    ∧ (pySplit ',' Match.HEADER).get? 5 = some (("Surface").toList)
    ∧ (pySplit ',' Match.HEADER).get? 6 = some (("Country").toList)
    ∧ (pySplit ',' Match.HEADER).get? 7 = some (("Round").toList)
    ∧ sampleBuiltFields.get? 4 = some sampleTourG.name
    ∧ sampleBuiltFields.get? 5 = some sampleTourG.surface
    ∧ sampleBuiltFields.get? 6 = some sampleTourG.country
    ∧ sampleBuiltFields.get? 7 = some (("Final").toList) :=
  c5_header_field_alignment sampleTourG samplePlayerA samplePlayerB
    (("Final").toList) (("6-4 6-4").toList)
    (("06/20/05 10:00:00").toList) sampleBuiltMatch sampleBuiltFields
    rfl rfl

theorem alookup_dictInsert {α : Type} (m : List (Str × α)) (k k2 : Str)
    (v : α) :
    alookup k (dictInsert m k2 v) = if k2 = k then some v else alookup k m := by
  induction m with
  | nil => simp [dictInsert, alookup]
  | cons p rest ih =>
    obtain ⟨k3, v3⟩ := p
    by_cases h32 : k3 = k2
    · subst h32
      by_cases hk : k3 = k
      · subst hk
        simp [dictInsert, alookup]
      · simp [dictInsert, alookup, hk]
    · by_cases hk3 : k3 = k
      · subst hk3
        have hk2 : ¬ k2 = k3 := fun he => h32 he.symm
        simp [dictInsert, alookup, h32, hk2]
      · simp [dictInsert, alookup, h32, hk3, ih]

theorem playerMapperBuildGo_lookup_none (dobMap : List (Str × Str))
    (id : Str) :
    ∀ (lst : List (Str × Str)) (acc res : List (Str × PlayerInfo)),
      (∀ pr ∈ lst, pr.1 = id → pr.2.contains '/' = true) →
      alookup id acc = none →
      playerMapperBuildGo dobMap lst acc = .ok res →
      alookup id res = none := by
  intro lst
  induction lst with
  | nil =>
    intro acc res hall hacc h
    rw [playerMapperBuildGo, Except.ok.injEq] at h
    subst h
    exact hacc
  | cons p rest ih =>
    obtain ⟨pid, pname⟩ := p
    intro acc res hall hacc h
    rw [playerMapperBuildGo] at h
    by_cases hs : pname.contains '/' = true
    · rw [if_pos hs] at h
      exact ih acc res (fun pr hpr => hall pr (List.mem_cons_of_mem _ hpr))
        hacc h
    · rw [if_neg hs] at h
      have hpid : ¬ pid = id := fun he =>
        hs (hall (pid, pname) (List.mem_cons_self _ _) he)
      cases hd : alookup pid dobMap with
      | none =>
        simp only [hd] at h
        exact ih acc res (fun pr hpr => hall pr (List.mem_cons_of_mem _ hpr))
          hacc h
      | some dob =>
        simp only [hd] at h
        cases hpi : PlayerInfo.init pid pname dob with
        | none => simp only [hpi] at h; simp at h
        | some pinfo =>
          simp only [hpi] at h
          refine ih _ res
            (fun pr hpr => hall pr (List.mem_cons_of_mem _ hpr)) ?_ h
          rw [alookup_dictInsert, if_neg hpid]
          exact hacc

theorem alookup_entries {α : Type} (m : List (Str × α)) (id : Str) (v : α)
    (hnd : (m.map Prod.fst).Nodup) (hl : alookup id m = some v) :
    ∀ pr ∈ m, pr.1 = id → pr.2 = v := by
  induction m with
  | nil =>
    intro pr hpr
    simp at hpr
  | cons p rest ih =>
    obtain ⟨k2, v2⟩ := p
    rw [alookup] at hl
    rw [List.map_cons, List.nodup_cons] at hnd
    obtain ⟨hk2notin, hndrest⟩ := hnd
    intro pr hpr hpr1
    rcases List.mem_cons.mp hpr with hpr | hpr
    · subst hpr
      rw [if_pos hpr1] at hl
      exact Option.some.inj hl
    · by_cases hk : k2 = id
      · exfalso
        apply hk2notin
        have hmem : pr.1 ∈ rest.map Prod.fst :=
          List.mem_map_of_mem Prod.fst hpr
        rw [hpr1] at hmem
        rw [hk]
        exact hmem
      · rw [if_neg hk] at hl
        exact ih hndrest hl pr hpr hpr1

/-- C9: a summary record in which at least one participant's resolved
name contains the pairing separator is excluded from the output.
PlayerMapper.load never creates a PlayerInfo for a name containing the
separator, so getPlayerInfo returns none for that participant, and the
load loop then skips the record at the unresolvable-player check, leaving
the loaded state exactly as it was — strictly stronger than dropping only
records where both names contain the separator. -/
theorem c9_slash_name_excluded :
    (∀ (nameMap dobMap : List (Str × Str))
       (res : List (Str × PlayerInfo)) (id pname : Str),
       (nameMap.map Prod.fst).Nodup →
       alookup id nameMap = some pname →
       pname.contains '/' = true →
       playerMapperBuild nameMap dobMap = .ok res →
       alookup id res = none)
    ∧ (∀ (tmap : Str → Option TourInfo) (pmap : Str → Option PlayerInfo)
         (rmap : Str → Option Str) (acc : List (MatchKey × Match))
         (row w l t r : Str) (ti : TourInfo) (rest2 : List Str),
       (pySplit ',' (pyStrip (removeChar '"' row))).get? 0 = some w →
       (pySplit ',' (pyStrip (removeChar '"' row))).get? 1 = some l →
       (pySplit ',' (pyStrip (removeChar '"' row))).get? 2 = some t →
       (pySplit ',' (pyStrip (removeChar '"' row))).get? 3 = some r →
       ¬ w = [] → ¬ l = [] → ¬ t = [] → ¬ r = [] →
       tmap t = some ti →
       (pmap w = none ∨ pmap l = none) →
       processGamesRow tmap pmap rmap acc row = .ok acc
       ∧ loadGamesRowsFrom tmap pmap rmap acc (row :: rest2)
           = loadGamesRowsFrom tmap pmap rmap acc rest2) := by
  constructor
  · intro nameMap dobMap res id pname hnd hfind hslash hbuild
    refine playerMapperBuildGo_lookup_none dobMap id nameMap [] res ?_ rfl
      hbuild
    intro pr hpr hpr1
    rw [alookup_entries nameMap id pname hnd hfind pr hpr hpr1]
    exact hslash
  · intro tmap pmap rmap acc row w l t r ti rest2 h0 h1 h2 h3 hw hl2 ht hr
      htm hp
    have hstep : processGamesRow tmap pmap rmap acc row = .ok acc := by
      rw [processGamesRow]
      simp only [h0, h1, h2, h3, MatchKey.init, htm]
      rw [if_pos ⟨hw, hl2, ht, hr⟩]
      rcases hp with hp | hp
      · simp only [hp]
      · cases hpw : pmap w with
        | none => simp only [hpw]
        | some wi => simp only [hpw, hp]
    refine ⟨hstep, ?_⟩
    show List.foldlM _ acc (row :: rest2) = _
    rw [List.foldlM_cons, hstep]
    rfl

def sampleTmapB : Str → Option TourInfo :=
  fun t => if t = ("T").toList then some sampleTourG else none

theorem c9_slash_name_excluded_witness :
    alookup (("1").toList) ([] : List (Str × PlayerInfo)) = none
    ∧ (processGamesRow sampleTmapB (fun _ => none) (fun _ => none) []
          (("1,2,T,R").toList) = .ok []
       ∧ loadGamesRowsFrom sampleTmapB (fun _ => none) (fun _ => none) []
           [("1,2,T,R").toList]
           = loadGamesRowsFrom sampleTmapB (fun _ => none) (fun _ => none)
               [] []) :=
  ⟨c9_slash_name_excluded.1 [((("1").toList), (("A/B").toList))] [] []
     (("1").toList) (("A/B").toList) (by simp) rfl rfl rfl,
   c9_slash_name_excluded.2 sampleTmapB (fun _ => none) (fun _ => none) []
     (("1,2,T,R").toList) (("1").toList) (("2").toList) (("T").toList)
     (("R").toList) sampleTourG [] rfl rfl rfl rfl (by decide) (by decide)
     (by decide) (by decide) rfl (Or.inl rfl)⟩

/-- C4 (amended): a summary record whose own date field is blank and whose
tournament also has no date raises a ValueError that no handler catches:
the entire load aborts there and no further record is processed.  The
record is not merely dropped with processing continuing. -/
theorem c4_amended_missing_date_aborts (tmap : Str → Option TourInfo)
    (pmap : Str → Option PlayerInfo) (rmap : Str → Option Str)
    (pre rest : List Str) (row : Str) (acc : List (MatchKey × Match))
    (w l t r : Str) (ti : TourInfo) (wi li : PlayerInfo)
    (h0 : (pySplit ',' (pyStrip (removeChar '"' row))).get? 0 = some w)
    (h1 : (pySplit ',' (pyStrip (removeChar '"' row))).get? 1 = some l)
    (h2 : (pySplit ',' (pyStrip (removeChar '"' row))).get? 2 = some t)
    (h3 : (pySplit ',' (pyStrip (removeChar '"' row))).get? 3 = some r)
    (h5 : (pySplit ',' (pyStrip (removeChar '"' row))).get? 5 = some [])
    (hw : ¬ w = []) (hl2 : ¬ l = []) (ht : ¬ t = []) (hr : ¬ r = [])
    (htm : tmap t = some ti) (htd : ti.date = [])
    (hpw : pmap w = some wi) (hpl : pmap l = some li)
    (hdd : (wi.name.contains '/' && li.name.contains '/') = false)
    (hpre : loadGamesRows tmap pmap rmap pre = .ok acc) :
    loadGamesRows tmap pmap rmap (pre ++ row :: rest)
      = .error ((("No match or tour date for ").toList)
          ++ (MatchKey.mk w l t r).name) := by
  have hstep : processGamesRow tmap pmap rmap acc row
      = .error ((("No match or tour date for ").toList)
          ++ (MatchKey.mk w l t r).name) := by
    rw [processGamesRow]
    simp only [h0, h1, h2, h3, MatchKey.init, htm, hpw, hpl]
    rw [if_pos ⟨hw, hl2, ht, hr⟩]
    simp only [hdd, Bool.false_eq_true, if_false, h5, htd]
    simp
  rw [loadGamesRows, loadGamesRowsFrom] at hpre ⊢
  rw [List.foldlM_append, hpre]
  have hbind : (do
      let init ← Except.ok acc
      List.foldlM (processGamesRow tmap pmap rmap) init (row :: rest))
      = List.foldlM (processGamesRow tmap pmap rmap) acc (row :: rest) := rfl
  rw [hbind, List.foldlM_cons, hstep]
  rfl

def samplePmapAB : Str → Option PlayerInfo :=
  fun i =>
    if i = ("1").toList then some samplePlayerA
    else if i = ("2").toList then some samplePlayerB
    else none

def sampleTourNoDate : TourInfo :=
  ⟨("T").toList, ("Wmb").toList, ("Grass").toList, [], ("GBR").toList⟩

def sampleTmapNoDate : Str → Option TourInfo :=
  fun t => if t = ("T").toList then some sampleTourNoDate else none

def sampleRmap : Str → Option Str :=
  fun r => if r = ("R").toList then some (("Final").toList) else none

def badDateRow : Str := ("1,2,T,R,6-4 6-4,").toList

def goodRow : Str := ("1,2,T,R,6-4 6-4,06/20/05 10:00:00").toList

def exceptOk {ε α : Type} : Except ε α → Bool
  | .ok _ => true
  | .error _ => false

/-- C4 (counterexample): a record with a blank date whose tournament also
has no date does not merely get dropped: loading it aborts the whole run
with the uncaught ValueError, and the following well-formed record (which
loads fine on its own) is never processed. -/
theorem c4_counterexample_run_aborts :
    loadGamesRows sampleTmapNoDate samplePmapAB sampleRmap
        [badDateRow, goodRow]
      = .error ((("No match or tour date for ").toList)
          ++ (MatchKey.mk (("1").toList) (("2").toList) (("T").toList)
              (("R").toList)).name)
    ∧ exceptOk (loadGamesRows sampleTmapNoDate samplePmapAB sampleRmap
        [goodRow]) = true := ⟨rfl, rfl⟩

theorem c4_amended_missing_date_aborts_witness :
    loadGamesRows sampleTmapNoDate samplePmapAB sampleRmap [badDateRow]
      = .error ((("No match or tour date for ").toList)
          ++ (MatchKey.mk (("1").toList) (("2").toList) (("T").toList)
              (("R").toList)).name) :=
  c4_amended_missing_date_aborts sampleTmapNoDate samplePmapAB sampleRmap
    [] [] badDateRow [] (("1").toList) (("2").toList) (("T").toList)
    (("R").toList) sampleTourNoDate samplePlayerA samplePlayerB
    rfl rfl rfl rfl rfl (by decide) (by decide) (by decide) (by decide)
    rfl rfl rfl rfl rfl rfl
